import Mathlib

/-!
# The `Link` story of the Civic component library

A shallow embedding of
`docroot/themes/custom/civic/civic-library/components/01-atoms/link/link.stories.js`.

The module imports three knob functions (`text`, `boolean`, `radios`) from the
Storybook knobs add-on and the compiled Twig template `CivicLink`.  Both are
external to the module, so the embedding takes them as parameters (a `Host`).
Calls into the host may change host state (a knob registers itself in the
panel) and may throw; both effects are explicit in `Eff`.
-/

namespace LinkStories

/-- JavaScript primitive values that travel between the story, the knobs and
the template. -/
inductive JSVal where
  | undefined
  | null
  | bool (b : Bool)
  | str (s : String)
  deriving DecidableEq, Repr

/-- A JavaScript object literal: its own properties, in insertion order. -/
abbrev Obj := List (String × JSVal)

/-- A host computation: run from a host state, it either returns a value or
throws, and leaves a host state behind in both cases. -/
def Eff (σ ε α : Type) : Type := σ → Except ε α × σ

/-- Sequencing of host computations: a throw skips the rest and keeps the
state reached so far. -/
def Eff.bind {σ ε α β : Type} (m : Eff σ ε α) (f : α → Eff σ ε β) : Eff σ ε β :=
  fun s =>
    match m s with
    | (Except.ok a, s1) => f a s1
    | (Except.error e, s1) => (Except.error e, s1)

instance {σ ε : Type} : Monad (Eff σ ε) where
  pure a := fun s => (Except.ok a, s)
  bind := Eff.bind

/-- The imports of the module: the three knob functions of the control panel
and the template function `CivicLink`, over host state `σ`, thrown values `ε`
and rendered markup `μ`. -/
structure Host (σ ε μ : Type) where
  /-- `radios(label, options, value)`. -/
  radios : String → Obj → JSVal → Eff σ ε JSVal
  /-- `text(label, value)`. -/
  text : String → JSVal → Eff σ ε JSVal
  /-- `boolean(label, value)`. -/
  boolean : String → JSVal → Eff σ ε JSVal
  /-- `CivicLink(record)`, from `./link.twig`. -/
  CivicLink : Obj → Eff σ ε μ

/-- The default export: `{ title: 'Atom/Link' }`. -/
def title : String := "Atom/Link"

/-- `export const Link = () => CivicLink({ ... })`.  The property values of the
object literal are evaluated in source order, then the template is called. -/
def Link {σ ε μ : Type} (h : Host σ ε μ) : Eff σ ε μ := do
  let theme ← h.radios "Theme"
    [("Light", JSVal.str "light"), ("Dark", JSVal.str "dark")]
    (JSVal.str "light")
  let text ← h.text "Text" (JSVal.str "Link Text")
  let url ← h.text "URL" (JSVal.str "https://www.example.com")
  let new_window ← h.boolean "Open in a new window" (JSVal.bool false)
  let is_external ← h.boolean "Link is external" (JSVal.bool false)
  h.CivicLink
    [("theme", theme), ("text", text), ("url", url),
     ("new_window", new_window), ("is_external", is_external)]

/-! ## Observing the calls the story makes -/

/-- One call from the story into the host, with its arguments. -/
inductive Call where
  | radios (label : String) (options : Obj) (value : JSVal)
  | text (label : String) (value : JSVal)
  | boolean (label : String) (value : JSVal)
  | render (record : Obj)
  deriving DecidableEq, Repr

/-- Append a call to the log kept next to the host state, whatever the outcome
of the call. -/
def logged {σ ε α : Type} (c : Call) (m : Eff σ ε α) : Eff (σ × List Call) ε α :=
  fun p => ((m p.1).1, ((m p.1).2, p.2 ++ [c]))

/-- The same host, with every call logged. -/
def traced {σ ε μ : Type} (h : Host σ ε μ) : Host (σ × List Call) ε μ where
  radios l o d := logged (Call.radios l o d) (h.radios l o d)
  text l d := logged (Call.text l d) (h.text l d)
  boolean l d := logged (Call.boolean l d) (h.boolean l d)
  CivicLink r := logged (Call.render r) (h.CivicLink r)

/-- The calls one invocation of `Link` makes from host state `s`, in order. -/
def callsOf {σ ε μ : Type} (h : Host σ ε μ) (s : σ) : List Call :=
  (Link (traced h) (s, [])).2.2

/-- The record of a template call. -/
def Call.record? : Call → Option Obj
  | Call.render r => some r
  | _ => none

/-- The label of a knob query. -/
def Call.label? : Call → Option String
  | Call.radios l _ _ => some l
  | Call.text l _ => some l
  | Call.boolean l _ => some l
  | Call.render _ => none

/-- The records one invocation of `Link` hands to the template. -/
def rendered {σ ε μ : Type} (h : Host σ ε μ) (s : σ) : List Obj :=
  (callsOf h s).filterMap Call.record?

/-- The labels of the knob queries one invocation of `Link` makes. -/
def queried {σ ε μ : Type} (h : Host σ ε μ) (s : σ) : List String :=
  (callsOf h s).filterMap Call.label?

/-- The values of a choice map, as offered by a radios control. -/
def choices (options : Obj) : List JSVal := options.map Prod.snd

/-! ## Contracts of the control panel, as hypotheses -/

/-- The five knob queries of the story, issued in order from host state `s`,
return `theme`, `text`, `url`, `new_window`, `is_external` and leave the host
in state `s5`. -/
def Answers {σ ε μ : Type} (h : Host σ ε μ) (s : σ)
    (theme text url new_window is_external : JSVal) (s5 : σ) : Prop :=
  ∃ s1 s2 s3 s4 : σ,
    h.radios "Theme" [("Light", JSVal.str "light"), ("Dark", JSVal.str "dark")]
        (JSVal.str "light") s = (Except.ok theme, s1) ∧
    h.text "Text" (JSVal.str "Link Text") s1 = (Except.ok text, s2) ∧
    h.text "URL" (JSVal.str "https://www.example.com") s2 = (Except.ok url, s3) ∧
    h.boolean "Open in a new window" (JSVal.bool false) s3 = (Except.ok new_window, s4) ∧
    h.boolean "Link is external" (JSVal.bool false) s4 = (Except.ok is_external, s5)

/-- Every knob query returns the default it was given (no override is set). -/
def ReturnsDefaults {σ ε μ : Type} (h : Host σ ε μ) : Prop :=
  (∀ l o d s, ∃ s1, h.radios l o d s = (Except.ok d, s1)) ∧
  (∀ l d s, ∃ s1, h.text l d s = (Except.ok d, s1)) ∧
  (∀ l d s, ∃ s1, h.boolean l d s = (Except.ok d, s1))

/-- No knob query throws: each returns some value. -/
def KnobsReturn {σ ε μ : Type} (h : Host σ ε μ) : Prop :=
  (∀ l o d s, ∃ v s1, h.radios l o d s = (Except.ok v, s1)) ∧
  (∀ l d s, ∃ v s1, h.text l d s = (Except.ok v, s1)) ∧
  (∀ l d s, ∃ v s1, h.boolean l d s = (Except.ok v, s1))

/-- A radios query that returns, returns its default or one of the values of
the choice map it was given. -/
def RadiosWithinChoices {σ ε μ : Type} (h : Host σ ε μ) : Prop :=
  ∀ l o d s v s1, h.radios l o d s = (Except.ok v, s1) → v = d ∨ v ∈ choices o

/-- The template is deterministic: what it returns or throws depends on the
record only, not on the host state. -/
def DeterministicRenderer {σ ε μ : Type} (h : Host σ ε μ) : Prop :=
  ∀ r s t, (h.CivicLink r s).1 = (h.CivicLink r t).1

/-! ## A control panel keyed by label -/

/-- The values currently held by the panel, newest binding first. -/
abbrev Store := List (String × JSVal)

/-- Set the control called `label` to `v`. -/
def Store.set (st : Store) (label : String) (v : JSVal) : Store := (label, v) :: st

/-- Modelled from the spec: the control-panel provider (the knobs add-on,
imported from outside this repository).  A query returns the value the
developer currently has the control set to, or the given default on first
use, in which case the control is registered in the panel with that default. -/
def knob {ε : Type} (label : String) (value : JSVal) : Eff Store ε JSVal :=
  fun st =>
    match st.lookup label with
    | some v => (Except.ok v, st)
    | none => (Except.ok value, (label, value) :: st)

/-- Modelled from the spec: a host whose control panel is a store keyed by
label and whose template renderer is the function `R` of the record alone. -/
def storeHost {ε μ : Type} (R : Obj → Except ε μ) : Host Store ε μ where
  radios l _ d := knob l d
  text l d := knob l d
  boolean l d := knob l d
  CivicLink r := fun st => (R r, st)

/-- A stand-in template for examples: the anchor text is the `text` field. -/
def showText (r : Obj) : Except String String :=
  match r.lookup "text" with
  | some (JSVal.str s) => Except.ok s
  | _ => Except.error "no text"

/-- A host without any state whose knobs all return their default. -/
def plainHost : Host Unit String String where
  radios _ _ d := fun s => (Except.ok d, s)
  text _ d := fun s => (Except.ok d, s)
  boolean _ d := fun s => (Except.ok d, s)
  CivicLink r := fun s => (showText r, s)

/-- The record field each control label feeds. -/
def fieldOf (label : String) : Option String :=
  if label = "Theme" then some "theme"
  else if label = "Text" then some "text"
  else if label = "URL" then some "url"
  else if label = "Open in a new window" then some "new_window"
  else if label = "Link is external" then some "is_external"
  else none

/-! ## General facts about one invocation -/

theorem bind_ok {σ ε α β : Type} (m : Eff σ ε α) (f : α → Eff σ ε β) (s s1 : σ) (a : α)
    (hm : m s = (Except.ok a, s1)) : (m >>= f) s = f a s1 := by
  show Eff.bind m f s = f a s1
  simp [Eff.bind, hm]

theorem bind_error {σ ε α β : Type} (m : Eff σ ε α) (f : α → Eff σ ε β) (s s1 : σ) (e : ε)
    (hm : m s = (Except.error e, s1)) : (m >>= f) s = (Except.error e, s1) := by
  show Eff.bind m f s = (Except.error e, s1)
  simp [Eff.bind, hm]

theorem logged_ok {σ ε α : Type} (c : Call) (m : Eff σ ε α) (s s1 : σ) (a : α)
    (hm : m s = (Except.ok a, s1)) (log : List Call) :
    logged c m (s, log) = (Except.ok a, (s1, log ++ [c])) := by
  simp [logged, hm]

theorem logged_error {σ ε α : Type} (c : Call) (m : Eff σ ε α) (s s1 : σ) (e : ε)
    (hm : m s = (Except.error e, s1)) (log : List Call) :
    logged c m (s, log) = (Except.error e, (s1, log ++ [c])) := by
  simp [logged, hm]

/-- When the five queries return, the story returns or throws exactly what the
template does on the record of the five returned values. -/
theorem Link_of_answers {σ ε μ : Type} (h : Host σ ε μ) (s s5 : σ)
    (v1 v2 v3 v4 v5 : JSVal) (ha : Answers h s v1 v2 v3 v4 v5 s5) :
    Link h s = h.CivicLink
      [("theme", v1), ("text", v2), ("url", v3), ("new_window", v4), ("is_external", v5)] s5 := by
  obtain ⟨s1, s2, s3, s4, h1, h2, h3, h4, h5⟩ := ha
  unfold Link
  rw [bind_ok _ _ _ _ _ h1, bind_ok _ _ _ _ _ h2, bind_ok _ _ _ _ _ h3,
    bind_ok _ _ _ _ _ h4, bind_ok _ _ _ _ _ h5]

/-- When the five queries return, the story makes exactly six calls. -/
theorem callsOf_of_answers {σ ε μ : Type} (h : Host σ ε μ) (s s5 : σ)
    (v1 v2 v3 v4 v5 : JSVal) (ha : Answers h s v1 v2 v3 v4 v5 s5) :
    callsOf h s =
      [Call.radios "Theme" [("Light", JSVal.str "light"), ("Dark", JSVal.str "dark")]
         (JSVal.str "light"),
       Call.text "Text" (JSVal.str "Link Text"),
       Call.text "URL" (JSVal.str "https://www.example.com"),
       Call.boolean "Open in a new window" (JSVal.bool false),
       Call.boolean "Link is external" (JSVal.bool false),
       Call.render
         [("theme", v1), ("text", v2), ("url", v3), ("new_window", v4), ("is_external", v5)]] := by
  obtain ⟨s1, s2, s3, s4, h1, h2, h3, h4, h5⟩ := ha
  have t1 := logged_ok (Call.radios "Theme"
    [("Light", JSVal.str "light"), ("Dark", JSVal.str "dark")] (JSVal.str "light")) _ _ _ _ h1
  have t2 := logged_ok (Call.text "Text" (JSVal.str "Link Text")) _ _ _ _ h2
  have t3 := logged_ok (Call.text "URL" (JSVal.str "https://www.example.com")) _ _ _ _ h3
  have t4 := logged_ok (Call.boolean "Open in a new window" (JSVal.bool false)) _ _ _ _ h4
  have t5 := logged_ok (Call.boolean "Link is external" (JSVal.bool false)) _ _ _ _ h5
  unfold callsOf Link
  rw [bind_ok ((traced h).radios _ _ _) _ _ _ _ (t1 _),
    bind_ok ((traced h).text _ _) _ _ _ _ (t2 _),
    bind_ok ((traced h).text _ _) _ _ _ _ (t3 _),
    bind_ok ((traced h).boolean _ _) _ _ _ _ (t4 _),
    bind_ok ((traced h).boolean _ _) _ _ _ _ (t5 _)]
  simp [traced, logged]

theorem rendered_of_answers {σ ε μ : Type} (h : Host σ ε μ) (s s5 : σ)
    (v1 v2 v3 v4 v5 : JSVal) (ha : Answers h s v1 v2 v3 v4 v5 s5) :
    rendered h s =
      [[("theme", v1), ("text", v2), ("url", v3), ("new_window", v4), ("is_external", v5)]] := by
  simp [rendered, callsOf_of_answers h s s5 v1 v2 v3 v4 v5 ha, Call.record?]

theorem answers_of_knobsReturn {σ ε μ : Type} (h : Host σ ε μ) (s : σ) (hk : KnobsReturn h) :
    ∃ v1 v2 v3 v4 v5 s5, Answers h s v1 v2 v3 v4 v5 s5 := by
  obtain ⟨hr, ht, hb⟩ := hk
  obtain ⟨v1, s1, h1⟩ := hr "Theme" [("Light", JSVal.str "light"), ("Dark", JSVal.str "dark")]
    (JSVal.str "light") s
  obtain ⟨v2, s2, h2⟩ := ht "Text" (JSVal.str "Link Text") s1
  obtain ⟨v3, s3, h3⟩ := ht "URL" (JSVal.str "https://www.example.com") s2
  obtain ⟨v4, s4, h4⟩ := hb "Open in a new window" (JSVal.bool false) s3
  obtain ⟨v5, s5, h5⟩ := hb "Link is external" (JSVal.bool false) s4
  exact ⟨v1, v2, v3, v4, v5, s5, s1, s2, s3, s4, h1, h2, h3, h4, h5⟩

theorem answers_of_returnsDefaults {σ ε μ : Type} (h : Host σ ε μ) (s : σ)
    (hd : ReturnsDefaults h) :
    ∃ s5, Answers h s (JSVal.str "light") (JSVal.str "Link Text")
      (JSVal.str "https://www.example.com") (JSVal.bool false) (JSVal.bool false) s5 := by
  obtain ⟨hr, ht, hb⟩ := hd
  obtain ⟨s1, h1⟩ := hr "Theme" [("Light", JSVal.str "light"), ("Dark", JSVal.str "dark")]
    (JSVal.str "light") s
  obtain ⟨s2, h2⟩ := ht "Text" (JSVal.str "Link Text") s1
  obtain ⟨s3, h3⟩ := ht "URL" (JSVal.str "https://www.example.com") s2
  obtain ⟨s4, h4⟩ := hb "Open in a new window" (JSVal.bool false) s3
  obtain ⟨s5, h5⟩ := hb "Link is external" (JSVal.bool false) s4
  exact ⟨s5, s1, s2, s3, s4, h1, h2, h3, h4, h5⟩

/-- The first call of the story is always the theme query; and either some knob
query threw, in which case the template was never called, or all five
returned. -/
theorem callsOf_cases {σ ε μ : Type} (h : Host σ ε μ) (s : σ) :
    (callsOf h s).head? = some (Call.radios "Theme"
        [("Light", JSVal.str "light"), ("Dark", JSVal.str "dark")] (JSVal.str "light")) ∧
    (rendered h s = [] ∨ ∃ v1 v2 v3 v4 v5 s5, Answers h s v1 v2 v3 v4 v5 s5) := by
  rcases h1 : h.radios "Theme" [("Light", JSVal.str "light"), ("Dark", JSVal.str "dark")]
    (JSVal.str "light") s with ⟨e1 | v1, s1⟩
  · have t1 := logged_error (Call.radios "Theme"
      [("Light", JSVal.str "light"), ("Dark", JSVal.str "dark")] (JSVal.str "light")) _ _ _ _ h1
    have hc : callsOf h s = [Call.radios "Theme"
        [("Light", JSVal.str "light"), ("Dark", JSVal.str "dark")] (JSVal.str "light")] := by
      unfold callsOf Link
      rw [bind_error ((traced h).radios _ _ _) _ _ _ _ (t1 _)]
      simp
    simp [rendered, hc, Call.record?]
  have t1 := logged_ok (Call.radios "Theme"
    [("Light", JSVal.str "light"), ("Dark", JSVal.str "dark")] (JSVal.str "light")) _ _ _ _ h1
  rcases h2 : h.text "Text" (JSVal.str "Link Text") s1 with ⟨e2 | v2, s2⟩
  · have t2 := logged_error (Call.text "Text" (JSVal.str "Link Text")) _ _ _ _ h2
    have hc : callsOf h s = [Call.radios "Theme"
        [("Light", JSVal.str "light"), ("Dark", JSVal.str "dark")] (JSVal.str "light"),
        Call.text "Text" (JSVal.str "Link Text")] := by
      unfold callsOf Link
      rw [bind_ok ((traced h).radios _ _ _) _ _ _ _ (t1 _),
        bind_error ((traced h).text _ _) _ _ _ _ (t2 _)]
      simp
    simp [rendered, hc, Call.record?]
  have t2 := logged_ok (Call.text "Text" (JSVal.str "Link Text")) _ _ _ _ h2
  rcases h3 : h.text "URL" (JSVal.str "https://www.example.com") s2 with ⟨e3 | v3, s3⟩
  · have t3 := logged_error (Call.text "URL" (JSVal.str "https://www.example.com")) _ _ _ _ h3
    have hc : callsOf h s = [Call.radios "Theme"
        [("Light", JSVal.str "light"), ("Dark", JSVal.str "dark")] (JSVal.str "light"),
        Call.text "Text" (JSVal.str "Link Text"),
        Call.text "URL" (JSVal.str "https://www.example.com")] := by
      unfold callsOf Link
      rw [bind_ok ((traced h).radios _ _ _) _ _ _ _ (t1 _),
        bind_ok ((traced h).text _ _) _ _ _ _ (t2 _),
        bind_error ((traced h).text _ _) _ _ _ _ (t3 _)]
      simp
    simp [rendered, hc, Call.record?]
  have t3 := logged_ok (Call.text "URL" (JSVal.str "https://www.example.com")) _ _ _ _ h3
  rcases h4 : h.boolean "Open in a new window" (JSVal.bool false) s3 with ⟨e4 | v4, s4⟩
  · have t4 := logged_error (Call.boolean "Open in a new window" (JSVal.bool false)) _ _ _ _ h4
    have hc : callsOf h s = [Call.radios "Theme"
        [("Light", JSVal.str "light"), ("Dark", JSVal.str "dark")] (JSVal.str "light"),
        Call.text "Text" (JSVal.str "Link Text"),
        Call.text "URL" (JSVal.str "https://www.example.com"),
        Call.boolean "Open in a new window" (JSVal.bool false)] := by
      unfold callsOf Link
      rw [bind_ok ((traced h).radios _ _ _) _ _ _ _ (t1 _),
        bind_ok ((traced h).text _ _) _ _ _ _ (t2 _),
        bind_ok ((traced h).text _ _) _ _ _ _ (t3 _),
        bind_error ((traced h).boolean _ _) _ _ _ _ (t4 _)]
      simp
    simp [rendered, hc, Call.record?]
  have t4 := logged_ok (Call.boolean "Open in a new window" (JSVal.bool false)) _ _ _ _ h4
  rcases h5 : h.boolean "Link is external" (JSVal.bool false) s4 with ⟨e5 | v5, s5⟩
  · have t5 := logged_error (Call.boolean "Link is external" (JSVal.bool false)) _ _ _ _ h5
    have hc : callsOf h s = [Call.radios "Theme"
        [("Light", JSVal.str "light"), ("Dark", JSVal.str "dark")] (JSVal.str "light"),
        Call.text "Text" (JSVal.str "Link Text"),
        Call.text "URL" (JSVal.str "https://www.example.com"),
        Call.boolean "Open in a new window" (JSVal.bool false),
        Call.boolean "Link is external" (JSVal.bool false)] := by
      unfold callsOf Link
      rw [bind_ok ((traced h).radios _ _ _) _ _ _ _ (t1 _),
        bind_ok ((traced h).text _ _) _ _ _ _ (t2 _),
        bind_ok ((traced h).text _ _) _ _ _ _ (t3 _),
        bind_ok ((traced h).boolean _ _) _ _ _ _ (t4 _),
        bind_error ((traced h).boolean _ _) _ _ _ _ (t5 _)]
      simp
    simp [rendered, hc, Call.record?]
  have ha : Answers h s v1 v2 v3 v4 v5 s5 := ⟨s1, s2, s3, s4, h1, h2, h3, h4, h5⟩
  refine ⟨?_, Or.inr ⟨v1, v2, v3, v4, v5, s5, ha⟩⟩
  simp [callsOf_of_answers h s s5 v1 v2 v3 v4 v5 ha]

/-! ## The label-keyed control panel -/

theorem knob_fst (ε : Type) (l : String) (d : JSVal) (st : Store) :
    (knob l d st : Except ε JSVal × Store).1 = Except.ok ((st.lookup l).getD d) := by
  unfold knob
  cases st.lookup l <;> rfl

theorem knob_lookup_ne (ε : Type) (l k : String) (d : JSVal) (st : Store) (hne : k ≠ l) :
    (knob l d st : Except ε JSVal × Store).2.lookup k = st.lookup k := by
  unfold knob
  cases hl : st.lookup l
  · have hb : (k == l) = false := by simpa using hne
    simp [List.lookup_cons, hb]
  · rfl

theorem knob_eq (ε : Type) (l : String) (d : JSVal) (st : Store) :
    (knob l d st : Except ε JSVal × Store) =
      (Except.ok ((st.lookup l).getD d), (knob l d st : Except ε JSVal × Store).2) := by
  rw [← knob_fst]

/-- With the label-keyed panel, each of the five queries returns the value
stored under its own label, or its own default. -/
theorem answers_storeHost {ε μ : Type} (R : Obj → Except ε μ) (st : Store) :
    ∃ s5, Answers (storeHost R) st
      ((st.lookup "Theme").getD (JSVal.str "light"))
      ((st.lookup "Text").getD (JSVal.str "Link Text"))
      ((st.lookup "URL").getD (JSVal.str "https://www.example.com"))
      ((st.lookup "Open in a new window").getD (JSVal.bool false))
      ((st.lookup "Link is external").getD (JSVal.bool false)) s5 := by
  have e1 := knob_eq ε "Theme" (JSVal.str "light") st
  generalize hs1 : (knob "Theme" (JSVal.str "light") st : Except ε JSVal × Store).2 = s1 at e1
  have l1 : ∀ k, k ≠ "Theme" → s1.lookup k = st.lookup k := fun k hk => by
    rw [← hs1]; exact knob_lookup_ne _ _ _ _ _ hk
  have e2 := knob_eq ε "Text" (JSVal.str "Link Text") s1
  generalize hs2 : (knob "Text" (JSVal.str "Link Text") s1 : Except ε JSVal × Store).2 = s2 at e2
  have l2 : ∀ k, k ≠ "Text" → s2.lookup k = s1.lookup k := fun k hk => by
    rw [← hs2]; exact knob_lookup_ne _ _ _ _ _ hk
  have e3 := knob_eq ε "URL" (JSVal.str "https://www.example.com") s2
  generalize hs3 : (knob "URL" (JSVal.str "https://www.example.com") s2 :
    Except ε JSVal × Store).2 = s3 at e3
  have l3 : ∀ k, k ≠ "URL" → s3.lookup k = s2.lookup k := fun k hk => by
    rw [← hs3]; exact knob_lookup_ne _ _ _ _ _ hk
  have e4 := knob_eq ε "Open in a new window" (JSVal.bool false) s3
  generalize hs4 : (knob "Open in a new window" (JSVal.bool false) s3 :
    Except ε JSVal × Store).2 = s4 at e4
  have l4 : ∀ k, k ≠ "Open in a new window" → s4.lookup k = s3.lookup k := fun k hk => by
    rw [← hs4]; exact knob_lookup_ne _ _ _ _ _ hk
  have e5 := knob_eq ε "Link is external" (JSVal.bool false) s4
  rw [l1 "Text" (by decide)] at e2
  rw [l2 "URL" (by decide), l1 "URL" (by decide)] at e3
  rw [l3 "Open in a new window" (by decide), l2 "Open in a new window" (by decide),
    l1 "Open in a new window" (by decide)] at e4
  rw [l4 "Link is external" (by decide), l3 "Link is external" (by decide),
    l2 "Link is external" (by decide), l1 "Link is external" (by decide)] at e5
  exact ⟨_, s1, s2, s3, s4, e1, e2, e3, e4, e5⟩

theorem rendered_storeHost {ε μ : Type} (R : Obj → Except ε μ) (st : Store) :
    rendered (storeHost R) st =
      [[("theme", (st.lookup "Theme").getD (JSVal.str "light")),
        ("text", (st.lookup "Text").getD (JSVal.str "Link Text")),
        ("url", (st.lookup "URL").getD (JSVal.str "https://www.example.com")),
        ("new_window", (st.lookup "Open in a new window").getD (JSVal.bool false)),
        ("is_external", (st.lookup "Link is external").getD (JSVal.bool false))]] := by
  obtain ⟨s5, ha⟩ := answers_storeHost R st
  exact rendered_of_answers _ _ _ _ _ _ _ _ ha

/-! ## Properties of the story -/

/-- C1: when every knob query returns the default it was given (no developer
override), the one record the story hands to `CivicLink` is exactly
`{theme: "light", text: "Link Text", url: "https://www.example.com",
new_window: false, is_external: false}`. -/
theorem C1_defaults_record {σ ε μ : Type} (h : Host σ ε μ) (s : σ)
    (hd : ReturnsDefaults h) :
    rendered h s =
      [[("theme", JSVal.str "light"), ("text", JSVal.str "Link Text"),
        ("url", JSVal.str "https://www.example.com"),
        ("new_window", JSVal.bool false), ("is_external", JSVal.bool false)]] := by
  obtain ⟨s5, ha⟩ := answers_of_returnsDefaults h s hd
  exact rendered_of_answers _ _ _ _ _ _ _ _ ha

/-- An instance of C1: the stateless host whose knobs all return their default. -/
theorem C1_defaults_record_witness :
    ReturnsDefaults plainHost ∧
    rendered plainHost () =
      [[("theme", JSVal.str "light"), ("text", JSVal.str "Link Text"),
        ("url", JSVal.str "https://www.example.com"),
        ("new_window", JSVal.bool false), ("is_external", JSVal.bool false)]] :=
  ⟨⟨fun _ _ _ s => ⟨s, rfl⟩, fun _ _ s => ⟨s, rfl⟩, fun _ _ s => ⟨s, rfl⟩⟩,
   C1_defaults_record plainHost ()
     ⟨fun _ _ _ s => ⟨s, rfl⟩, fun _ _ s => ⟨s, rfl⟩, fun _ _ s => ⟨s, rfl⟩⟩⟩

/-- C2: when the panel answers the five queries with theme `t` ("light", "dark"
or any other string), strings `x` (Text) and `u` (URL) and booleans `n` (Open in a
new window) and `e` (Link is external), the one record handed to `CivicLink` is
exactly `{theme: t, text: x, url: u, new_window: n, is_external: e}`, each value
under its own key and with its own type.  In particular, with the label-keyed
panel holding theme "dark" and new_window true and nothing else, the record is
`{theme: "dark", text: "Link Text", url: "https://www.example.com",
new_window: true, is_external: false}`. -/
theorem C2_record_reflects_controls {σ ε μ : Type} (h : Host σ ε μ) (s s5 : σ)
    (t x u : String) (n e : Bool) (R : Obj → Except ε μ)
    (ha : Answers h s (JSVal.str t) (JSVal.str x) (JSVal.str u) (JSVal.bool n)
      (JSVal.bool e) s5) :
    rendered h s =
      [[("theme", JSVal.str t), ("text", JSVal.str x), ("url", JSVal.str u),
        ("new_window", JSVal.bool n), ("is_external", JSVal.bool e)]] ∧
    rendered (storeHost R)
        (Store.set (Store.set [] "Theme" (JSVal.str "dark"))
          "Open in a new window" (JSVal.bool true)) =
      [[("theme", JSVal.str "dark"), ("text", JSVal.str "Link Text"),
        ("url", JSVal.str "https://www.example.com"),
        ("new_window", JSVal.bool true), ("is_external", JSVal.bool false)]] := by
  refine ⟨rendered_of_answers _ _ _ _ _ _ _ _ ha, ?_⟩
  rw [rendered_storeHost]
  rfl

/-- An instance of C2: the label-keyed panel holding theme "dark" and new_window
true. -/
theorem C2_record_reflects_controls_witness :
    rendered (storeHost showText)
        [("Open in a new window", JSVal.bool true), ("Theme", JSVal.str "dark")] =
      [[("theme", JSVal.str "dark"), ("text", JSVal.str "Link Text"),
        ("url", JSVal.str "https://www.example.com"),
        ("new_window", JSVal.bool true), ("is_external", JSVal.bool false)]] :=
  (C2_record_reflects_controls (storeHost showText)
    [("Open in a new window", JSVal.bool true), ("Theme", JSVal.str "dark")] _
    "dark" "Link Text" "https://www.example.com" true false showText
    ⟨_, _, _, _, rfl, rfl, rfl, rfl, rfl⟩).1

/-- C3: when the five queries return, the story calls the template exactly once,
on the assembled record, and its own outcome is that call's outcome: the same
markup when the template returns, the same thrown value when it throws, and the
same host state afterwards. -/
theorem C3_result_is_renderer_outcome {σ ε μ : Type} (h : Host σ ε μ) (s s5 : σ)
    (v1 v2 v3 v4 v5 : JSVal) (ha : Answers h s v1 v2 v3 v4 v5 s5) :
    rendered h s =
      [[("theme", v1), ("text", v2), ("url", v3), ("new_window", v4), ("is_external", v5)]] ∧
    Link h s = h.CivicLink
      [("theme", v1), ("text", v2), ("url", v3), ("new_window", v4), ("is_external", v5)] s5 ∧
    (∀ m, (h.CivicLink
        [("theme", v1), ("text", v2), ("url", v3), ("new_window", v4), ("is_external", v5)]
        s5).1 = Except.ok m → (Link h s).1 = Except.ok m) ∧
    (∀ err, (h.CivicLink
        [("theme", v1), ("text", v2), ("url", v3), ("new_window", v4), ("is_external", v5)]
        s5).1 = Except.error err → (Link h s).1 = Except.error err) := by
  have hl := Link_of_answers h s s5 v1 v2 v3 v4 v5 ha
  refine ⟨rendered_of_answers _ _ _ _ _ _ _ _ ha, hl, ?_, ?_⟩
  · intro m hm
    rw [hl, hm]
  · intro err hm
    rw [hl, hm]

/-- Two instances of C3: a template call that throws and one that returns. -/
theorem C3_result_is_renderer_outcome_witness :
    (Link (storeHost showText) [("Text", JSVal.null)]).1 = Except.error "no text" ∧
    (Link (storeHost showText) [("Text", JSVal.str "Home")]).1 = Except.ok "Home" :=
  ⟨(C3_result_is_renderer_outcome (storeHost showText) [("Text", JSVal.null)] _
      _ _ _ _ _ ⟨_, _, _, _, rfl, rfl, rfl, rfl, rfl⟩).2.2.2 "no text" rfl,
   (C3_result_is_renderer_outcome (storeHost showText) [("Text", JSVal.str "Home")] _
      _ _ _ _ _ ⟨_, _, _, _, rfl, rfl, rfl, rfl, rfl⟩).2.2.1 "Home" rfl⟩

/-- C4: the story keeps no state of its own.  For two invocations, from any two
host states and through any two panels that share the template, in which the
five queries return the same values, the records handed to the template are
identical and, the template being deterministic, so is what the story returns or
throws.  The second host state may be the one the first invocation left. -/
theorem C4_stateless_idempotent {σ ε μ : Type} (h k : Host σ ε μ) (s s5 t t5 : σ)
    (v1 v2 v3 v4 v5 : JSVal) (hk : k.CivicLink = h.CivicLink)
    (hdet : DeterministicRenderer h)
    (ha : Answers h s v1 v2 v3 v4 v5 s5) (hb : Answers k t v1 v2 v3 v4 v5 t5) :
    rendered h s = rendered k t ∧ (Link h s).1 = (Link k t).1 := by
  refine ⟨?_, ?_⟩
  · rw [rendered_of_answers _ _ _ _ _ _ _ _ ha, rendered_of_answers _ _ _ _ _ _ _ _ hb]
  · rw [Link_of_answers _ _ _ _ _ _ _ _ ha, Link_of_answers _ _ _ _ _ _ _ _ hb, hk]
    exact hdet _ _ _

/-- An instance of C4: the second invocation starts from the panel the first one
left, in which the five controls are now registered. -/
theorem C4_stateless_idempotent_witness :
    (Link (storeHost showText) []).2 ≠ [] ∧
    rendered (storeHost showText) [] =
      rendered (storeHost showText) (Link (storeHost showText) []).2 ∧
    (Link (storeHost showText) []).1 =
      (Link (storeHost showText) (Link (storeHost showText) []).2).1 :=
  ⟨by decide,
   C4_stateless_idempotent (storeHost showText) (storeHost showText)
     [] _ (Link (storeHost showText) []).2 _
     (JSVal.str "light") (JSVal.str "Link Text") (JSVal.str "https://www.example.com")
     (JSVal.bool false) (JSVal.bool false) rfl (fun _ _ _ => rfl)
     ⟨_, _, _, _, rfl, rfl, rfl, rfl, rfl⟩ ⟨_, _, _, _, rfl, rfl, rfl, rfl, rfl⟩⟩

/-- C5: the first call of the story is the radios query "Theme", whose choice
map has exactly the values "light" and "dark" and whose default "light" is one
of them; hence, with a panel whose radios queries return their default or a
value of the choice map they were given, every record handed to the template
has theme "light" or theme "dark". -/
theorem C5_theme_restricted {σ ε μ : Type} (h : Host σ ε μ) (s : σ)
    (hr : RadiosWithinChoices h) :
    (∃ o d, (callsOf h s).head? = some (Call.radios "Theme" o d) ∧
      choices o = [JSVal.str "light", JSVal.str "dark"] ∧
      d = JSVal.str "light" ∧ d ∈ choices o) ∧
    (∀ r ∈ rendered h s,
      r.lookup "theme" = some (JSVal.str "light") ∨
      r.lookup "theme" = some (JSVal.str "dark")) := by
  obtain ⟨hhead, hcases⟩ := callsOf_cases h s
  refine ⟨⟨_, _, hhead, rfl, rfl, by decide⟩, ?_⟩
  intro r hmem
  rcases hcases with hnil | ⟨v1, v2, v3, v4, v5, s5, ha⟩
  · rw [hnil] at hmem
    cases hmem
  · rw [rendered_of_answers _ _ _ _ _ _ _ _ ha] at hmem
    obtain ⟨s1, _, _, _, h1, _⟩ := ha
    have hv := hr _ _ _ _ _ _ h1
    have hrec : r = [("theme", v1), ("text", v2), ("url", v3), ("new_window", v4),
        ("is_external", v5)] := by simpa using hmem
    subst hrec
    rcases hv with hv | hv
    · left
      simp [List.lookup_cons, hv]
    · have hv2 : v1 = JSVal.str "light" ∨ v1 = JSVal.str "dark" := by
        simpa [choices] using hv
      rcases hv2 with hv2 | hv2
      · left
        simp [List.lookup_cons, hv2]
      · right
        simp [List.lookup_cons, hv2]

/-- An instance of C5: the stateless host whose knobs all return their default. -/
theorem C5_theme_restricted_witness :
    RadiosWithinChoices plainHost ∧
    rendered plainHost () ≠ [] ∧
    ∀ r ∈ rendered plainHost (),
      r.lookup "theme" = some (JSVal.str "light") ∨
      r.lookup "theme" = some (JSVal.str "dark") :=
  ⟨fun _ _ _ _ _ _ hq => Or.inl (by cases hq; rfl),
   by decide,
   (C5_theme_restricted plainHost ()
      (fun _ _ _ _ _ _ hq => Or.inl (by cases hq; rfl))).2⟩

/-- C6: when the five queries return and each returned value is the default of
its control or an override of the kind of its control (a value of the choice
map for the radios, a string for a text control, a boolean for a boolean
control), the one record handed to the template has exactly the five keys theme,
text, url, new_window, is_external, and under each of them a value that is
neither null nor undefined. -/
theorem C6_fields_populated {σ ε μ : Type} (h : Host σ ε μ) (s s5 : σ)
    (v1 v2 v3 v4 v5 : JSVal) (ha : Answers h s v1 v2 v3 v4 v5 s5)
    (h1 : v1 = JSVal.str "light" ∨
      v1 ∈ choices [("Light", JSVal.str "light"), ("Dark", JSVal.str "dark")])
    (h2 : v2 = JSVal.str "Link Text" ∨ ∃ x, v2 = JSVal.str x)
    (h3 : v3 = JSVal.str "https://www.example.com" ∨ ∃ x, v3 = JSVal.str x)
    (h4 : v4 = JSVal.bool false ∨ ∃ b, v4 = JSVal.bool b)
    (h5 : v5 = JSVal.bool false ∨ ∃ b, v5 = JSVal.bool b) :
    ∃ r, rendered h s = [r] ∧
      r.map Prod.fst = ["theme", "text", "url", "new_window", "is_external"] ∧
      ∀ k ∈ ["theme", "text", "url", "new_window", "is_external"],
        ∃ v, r.lookup k = some v ∧ v ≠ JSVal.null ∧ v ≠ JSVal.undefined := by
  refine ⟨_, rendered_of_answers _ _ _ _ _ _ _ _ ha, rfl, ?_⟩
  have p1 : v1 ≠ JSVal.null ∧ v1 ≠ JSVal.undefined := by
    rcases h1 with h1 | h1
    · subst h1; exact ⟨by decide, by decide⟩
    · have h1b : v1 = JSVal.str "light" ∨ v1 = JSVal.str "dark" := by
        simpa [choices] using h1
      rcases h1b with h1b | h1b <;> subst h1b <;> exact ⟨by decide, by decide⟩
  have p2 : v2 ≠ JSVal.null ∧ v2 ≠ JSVal.undefined := by
    rcases h2 with h2 | ⟨x, h2⟩ <;> subst h2 <;> exact ⟨nofun, nofun⟩
  have p3 : v3 ≠ JSVal.null ∧ v3 ≠ JSVal.undefined := by
    rcases h3 with h3 | ⟨x, h3⟩ <;> subst h3 <;> exact ⟨nofun, nofun⟩
  have p4 : v4 ≠ JSVal.null ∧ v4 ≠ JSVal.undefined := by
    rcases h4 with h4 | ⟨x, h4⟩ <;> subst h4 <;> exact ⟨nofun, nofun⟩
  have p5 : v5 ≠ JSVal.null ∧ v5 ≠ JSVal.undefined := by
    rcases h5 with h5 | ⟨x, h5⟩ <;> subst h5 <;> exact ⟨nofun, nofun⟩
  intro k hk
  simp only [List.mem_cons, List.mem_singleton, List.not_mem_nil, or_false] at hk
  rcases hk with hk | hk | hk | hk | hk <;> subst hk
  · exact ⟨v1, rfl, p1⟩
  · exact ⟨v2, rfl, p2⟩
  · exact ⟨v3, rfl, p3⟩
  · exact ⟨v4, rfl, p4⟩
  · exact ⟨v5, rfl, p5⟩

/-- An instance of C6: the label-keyed panel with the URL overridden. -/
theorem C6_fields_populated_witness :
    ∃ r, rendered (storeHost showText) [("URL", JSVal.str "/about")] = [r] ∧
      r.map Prod.fst = ["theme", "text", "url", "new_window", "is_external"] ∧
      ∀ k ∈ ["theme", "text", "url", "new_window", "is_external"],
        ∃ v, r.lookup k = some v ∧ v ≠ JSVal.null ∧ v ≠ JSVal.undefined :=
  C6_fields_populated (storeHost showText) [("URL", JSVal.str "/about")] _
    (JSVal.str "light") (JSVal.str "Link Text") (JSVal.str "/about")
    (JSVal.bool false) (JSVal.bool false)
    ⟨_, _, _, _, rfl, rfl, rfl, rfl, rfl⟩
    (Or.inl rfl) (Or.inl rfl) (Or.inr ⟨"/about", rfl⟩) (Or.inl rfl) (Or.inl rfl)

/-- C7: whatever string `u` the "URL" control returns, the empty string and
strings that are no URL included, the one record handed to the template has
`url = u`, and the outcome of the story is the outcome of the template on that
record: the story neither rejects nor alters `u`. -/
theorem C7_url_passthrough {σ ε μ : Type} (h : Host σ ε μ) (s s5 : σ)
    (v1 v2 v4 v5 : JSVal) (u : String)
    (ha : Answers h s v1 v2 (JSVal.str u) v4 v5 s5) :
    ∃ r, rendered h s = [r] ∧ r.lookup "url" = some (JSVal.str u) ∧
      Link h s = h.CivicLink r s5 :=
  ⟨_, rendered_of_answers _ _ _ _ _ _ _ _ ha, rfl, Link_of_answers _ _ _ _ _ _ _ _ ha⟩

/-- Two instances of C7: the empty string and a string that is no URL. -/
theorem C7_url_passthrough_witness :
    (∃ r, rendered (storeHost showText) [("URL", JSVal.str "")] = [r] ∧
      r.lookup "url" = some (JSVal.str "") ∧
      Link (storeHost showText) [("URL", JSVal.str "")] =
        (storeHost showText).CivicLink r
          (Link (storeHost showText) [("URL", JSVal.str "")]).2) ∧
    (Link (storeHost showText) [("URL", JSVal.str "not a url")]).1 = Except.ok "Link Text" :=
  ⟨C7_url_passthrough (storeHost showText) [("URL", JSVal.str "")] _
     (JSVal.str "light") (JSVal.str "Link Text") (JSVal.bool false) (JSVal.bool false) ""
     ⟨_, _, _, _, rfl, rfl, rfl, rfl, rfl⟩,
   rfl⟩

/-- C8: with a panel whose queries all return, one invocation of the story makes
exactly these calls, in this order: the radios query "Theme" with choice map
`{Light: "light", Dark: "dark"}` and default "light", the text queries "Text"
(default "Link Text") and "URL" (default "https://www.example.com"), the boolean
queries "Open in a new window" and "Link is external" (default false both), and
then one template call whose record holds precisely the five values those
queries returned. -/
theorem C8_five_queries {σ ε μ : Type} (h : Host σ ε μ) (s : σ) (hk : KnobsReturn h) :
    ∃ v1 v2 v3 v4 v5 s5, Answers h s v1 v2 v3 v4 v5 s5 ∧
      callsOf h s =
        [Call.radios "Theme" [("Light", JSVal.str "light"), ("Dark", JSVal.str "dark")]
           (JSVal.str "light"),
         Call.text "Text" (JSVal.str "Link Text"),
         Call.text "URL" (JSVal.str "https://www.example.com"),
         Call.boolean "Open in a new window" (JSVal.bool false),
         Call.boolean "Link is external" (JSVal.bool false),
         Call.render
           [("theme", v1), ("text", v2), ("url", v3), ("new_window", v4),
            ("is_external", v5)]] := by
  obtain ⟨v1, v2, v3, v4, v5, s5, ha⟩ := answers_of_knobsReturn h s hk
  exact ⟨v1, v2, v3, v4, v5, s5, ha, callsOf_of_answers _ _ _ _ _ _ _ _ ha⟩

/-- An instance of C8: the stateless host whose knobs all return their default. -/
theorem C8_five_queries_witness :
    KnobsReturn plainHost ∧
    ∃ v1 v2 v3 v4 v5 s5, Answers plainHost () v1 v2 v3 v4 v5 s5 ∧
      callsOf plainHost () =
        [Call.radios "Theme" [("Light", JSVal.str "light"), ("Dark", JSVal.str "dark")]
           (JSVal.str "light"),
         Call.text "Text" (JSVal.str "Link Text"),
         Call.text "URL" (JSVal.str "https://www.example.com"),
         Call.boolean "Open in a new window" (JSVal.bool false),
         Call.boolean "Link is external" (JSVal.bool false),
         Call.render
           [("theme", v1), ("text", v2), ("url", v3), ("new_window", v4),
            ("is_external", v5)]] :=
  ⟨⟨fun _ _ d s => ⟨d, s, rfl⟩, fun _ d s => ⟨d, s, rfl⟩, fun _ d s => ⟨d, s, rfl⟩⟩,
   C8_five_queries plainHost ()
     ⟨fun _ _ d s => ⟨d, s, rfl⟩, fun _ d s => ⟨d, s, rfl⟩, fun _ d s => ⟨d, s, rfl⟩⟩⟩

/-- C9, as stated, fails: with every control at its default the story makes five
knob queries, not four, and the record it hands to the template has five
fields, not four. -/
theorem C9_four_values_counterexample :
    (queried plainHost ()).length ≠ 4 ∧
    rendered plainHost () ≠ [] ∧
    ∀ r ∈ rendered plainHost (), r.length ≠ 4 := by
  decide

/-- C9, amended: when the five queries return, the story has collected five
values through the control panel (labels "Theme", "Text", "URL", "Open in a new
window", "Link is external") and the one record it forwards to the template is
built from those five values, in that order. -/
theorem C9_five_values_forwarded {σ ε μ : Type} (h : Host σ ε μ) (s s5 : σ)
    (v1 v2 v3 v4 v5 : JSVal) (ha : Answers h s v1 v2 v3 v4 v5 s5) :
    queried h s = ["Theme", "Text", "URL", "Open in a new window", "Link is external"] ∧
    (queried h s).length = 5 ∧
    ∃ r, rendered h s = [r] ∧ r.length = 5 ∧ r.map Prod.snd = [v1, v2, v3, v4, v5] := by
  have hq : queried h s =
      ["Theme", "Text", "URL", "Open in a new window", "Link is external"] := by
    simp [queried, callsOf_of_answers _ _ _ _ _ _ _ _ ha, Call.label?]
  refine ⟨hq, by rw [hq]; rfl, _, rendered_of_answers _ _ _ _ _ _ _ _ ha, rfl, rfl⟩

/-- An instance of the amended C9: the label-keyed panel with the text overridden. -/
theorem C9_five_values_forwarded_witness :
    (queried (storeHost showText) [("Text", JSVal.str "Home")]).length = 5 ∧
    ∃ r, rendered (storeHost showText) [("Text", JSVal.str "Home")] = [r] ∧ r.length = 5 ∧
      r.map Prod.snd =
        [JSVal.str "light", JSVal.str "Home", JSVal.str "https://www.example.com",
         JSVal.bool false, JSVal.bool false] :=
  (C9_five_values_forwarded (storeHost showText) [("Text", JSVal.str "Home")] _
    _ _ _ _ _ ⟨_, _, _, _, rfl, rfl, rfl, rfl, rfl⟩).2

/-- C10: with the label-keyed panel, the five labels the story queries are
"Theme", "Text", "URL", "Open in a new window", "Link is external", pairwise
distinct; and setting the stored value of any one label to `v` makes the field
fed by that label equal to `v` and leaves every other field of the record as it
was (a label that feeds no field changes nothing). -/
theorem C10_controls_independent {ε μ : Type} (R : Obj → Except ε μ) (st : Store)
    (label : String) (v : JSVal) :
    queried (storeHost R) st =
      ["Theme", "Text", "URL", "Open in a new window", "Link is external"] ∧
    (queried (storeHost R) st).Nodup ∧
    ∃ r r1, rendered (storeHost R) st = [r] ∧
      rendered (storeHost R) (Store.set st label v) = [r1] ∧
      (∀ k, fieldOf label = some k → r1.lookup k = some v) ∧
      (∀ k, fieldOf label ≠ some k → r1.lookup k = r.lookup k) := by
  obtain ⟨s5, ha⟩ := answers_storeHost R st
  have hq : queried (storeHost R) st =
      ["Theme", "Text", "URL", "Open in a new window", "Link is external"] := by
    simp [queried, callsOf_of_answers _ _ _ _ _ _ _ _ ha, Call.label?]
  refine ⟨hq, by rw [hq]; decide, _, _, rendered_storeHost R st,
    rendered_storeHost R (Store.set st label v), ?_, ?_⟩
  · intro k hk
    unfold fieldOf at hk
    unfold Store.set
    split_ifs at hk with c1 c2 c3 c4 c5 <;> simp at hk <;> subst hk
    · subst c1; simp [List.lookup_cons]
    · subst c2; simp [List.lookup_cons]
    · subst c3; simp [List.lookup_cons]
    · subst c4; simp [List.lookup_cons]
    · subst c5; simp [List.lookup_cons]
  · intro k hk
    unfold fieldOf at hk
    unfold Store.set
    split_ifs at hk with c1 c2 c3 c4 c5
    · subst c1
      have hne : (k == "theme") = false := by
        simpa using fun hc : k = "theme" => hk (by rw [hc])
      simp [List.lookup_cons, hne]
    · subst c2
      have hne : (k == "text") = false := by
        simpa using fun hc : k = "text" => hk (by rw [hc])
      simp [List.lookup_cons, hne]
    · subst c3
      have hne : (k == "url") = false := by
        simpa using fun hc : k = "url" => hk (by rw [hc])
      simp [List.lookup_cons, hne]
    · subst c4
      have hne : (k == "new_window") = false := by
        simpa using fun hc : k = "new_window" => hk (by rw [hc])
      simp [List.lookup_cons, hne]
    · subst c5
      have hne : (k == "is_external") = false := by
        simpa using fun hc : k = "is_external" => hk (by rw [hc])
      simp [List.lookup_cons, hne]
    · have d1 : ("Theme" == label) = false := by simpa using fun hc : "Theme" = label => c1 hc.symm
      have d2 : ("Text" == label) = false := by simpa using fun hc : "Text" = label => c2 hc.symm
      have d3 : ("URL" == label) = false := by simpa using fun hc : "URL" = label => c3 hc.symm
      have d4 : ("Open in a new window" == label) = false := by
        simpa using fun hc : "Open in a new window" = label => c4 hc.symm
      have d5 : ("Link is external" == label) = false := by
        simpa using fun hc : "Link is external" = label => c5 hc.symm
      simp [List.lookup_cons, d1, d2, d3, d4, d5]

/-- An instance of C10: overriding "URL" on a panel that holds only "Text" sets
the url field and leaves the text and theme fields alone. -/
theorem C10_controls_independent_witness :
    ∃ r r1, rendered (storeHost showText) [("Text", JSVal.str "Home")] = [r] ∧
      rendered (storeHost showText)
        (Store.set [("Text", JSVal.str "Home")] "URL" (JSVal.str "/about")) = [r1] ∧
      r1.lookup "url" = some (JSVal.str "/about") ∧
      r1.lookup "text" = r.lookup "text" ∧
      r1.lookup "theme" = r.lookup "theme" :=
  match (C10_controls_independent showText [("Text", JSVal.str "Home")] "URL"
      (JSVal.str "/about")).2.2 with
  | ⟨r, r1, hr, hr1, hset, hkeep⟩ =>
    ⟨r, r1, hr, hr1, hset "url" rfl, hkeep "text" (by decide), hkeep "theme" (by decide)⟩

end LinkStories
